import Mathlib

/-!
Verification of the Akuit document-intake pipeline.

This file gives a shallow embedding, in Lean 4, of the parts of the Akuit
repository that the specification's testable properties talk about:

* the JSON-blob extraction from free-text model output
  (`src/app/api/akuit/analyze-document/route.ts`),
* the Gemini gateway retry loop (`geminiFetch`),
* API-key resolution (`getApiKey` in the route, `getEnvApiKey` /
  `getActiveApiKey` in `src/lib/api-keys.ts`),
* `maskApiKey`,
* the report DELETE handler (`src/app/api/akuit/reports/[id]/route.ts`),
* the image-quality heuristics (`src/lib/document-processor.ts`),
* the multi-file intake POST handler.

JavaScript numbers are modelled with `ℚ`, fallible steps with `Option` /
`Except`, and the external model gateway with an oracle giving each call's
outcome.  Where a definition simplifies a JavaScript coercion corner the
simplification is noted in a comment next to it.
-/

/-! ## JSON values and `JSON.parse`

The pipeline extracts a brace- (or bracket-) delimited span from the model's
free-text response and feeds it to `JSON.parse`.  We model JSON values with
numbers as rationals (JSON numbers are decimal literals, which embed exactly
into `ℚ`; the double-precision rounding performed by JavaScript does not
matter for any property proved here). -/

inductive Json where
  | null : Json
  | bool (b : Bool) : Json
  | num (m e10 : Int) : Json
  | str (s : String) : Json
  | arr (elems : List Json) : Json
  | obj (fields : List (String × Json)) : Json

/-- The rational a parsed number literal denotes: `m * 10 ^ e10`.  Storing
mantissa and decimal exponent keeps parsing exact and kernel-computable;
distinct literals for one rational (`120` vs `12e1`) stay distinguishable,
which only refines equality and never merges distinct JavaScript values. -/
def jnumVal (m e10 : Int) : ℚ := (m : ℚ) * (10 : ℚ) ^ e10

/-- Property access `j.k` on a parsed JSON value: on an object, the binding
for `k` (the last one, matching how `JSON.parse` lets duplicate keys
overwrite); `undefined` (here `none`) on everything else. -/
def jsGet (j : Json) (k : String) : Option Json :=
  match j with
  | Json.obj fields => (fields.reverse.find? (fun p => p.1 == k)).map (fun p => p.2)
  | _ => none

/-- JSON whitespace (the four characters `JSON.parse` skips). -/
def skipWs : List Char → List Char
  | [] => []
  | c :: rest =>
    if c = ' ' ∨ c = '\t' ∨ c = '\n' ∨ c = '\r' then skipWs rest else c :: rest

def hexVal (c : Char) : Option Nat :=
  if '0' ≤ c ∧ c ≤ '9' then some (c.toNat - '0'.toNat)
  else if 'a' ≤ c ∧ c ≤ 'f' then some (c.toNat - 'a'.toNat + 10)
  else if 'A' ≤ c ∧ c ≤ 'F' then some (c.toNat - 'A'.toNat + 10)
  else none

def escChar (c : Char) : Option Char :=
  if c = '"' then some '"'
  else if c = '\\' then some '\\'
  else if c = '/' then some '/'
  else if c = 'b' then some '\x08'
  else if c = 'f' then some '\x0C'
  else if c = 'n' then some '\n'
  else if c = 'r' then some '\r'
  else if c = 't' then some '\t'
  else none

/-- Scan the body of a JSON string literal (the opening quote already
consumed): returns the decoded characters and the remaining input.  Raw
control characters are rejected, escapes are decoded; surrogate-pair
recombination of two `\uXXXX` escapes is not performed (irrelevant here). -/
def parseStringChars : List Char → Option (List Char × List Char)
  | [] => none
  | '"' :: rest => some ([], rest)
  | '\\' :: 'u' :: h₁ :: h₂ :: h₃ :: h₄ :: rest =>
    match hexVal h₁, hexVal h₂, hexVal h₃, hexVal h₄ with
    | some a, some b, some c, some d =>
      match parseStringChars rest with
      | some (cs, rem) => some (Char.ofNat (((a * 16 + b) * 16 + c) * 16 + d) :: cs, rem)
      | none => none
    | _, _, _, _ => none
  | '\\' :: 'u' :: _ :: _ :: _ :: [] => none
  | '\\' :: 'u' :: _ :: _ :: [] => none
  | '\\' :: 'u' :: _ :: [] => none
  | '\\' :: 'u' :: [] => none
  | '\\' :: e :: rest =>
    if e = 'u' then none
    else
      match escChar e with
      | some c =>
        match parseStringChars rest with
        | some (cs, rem) => some (c :: cs, rem)
        | none => none
      | none => none
  | '\\' :: [] => none
  | c :: rest =>
    if c.toNat < 32 then none
    else
      match parseStringChars rest with
      | some (cs, rem) => some (c :: cs, rem)
      | none => none

def digitsSpan (cs : List Char) : List Char × List Char :=
  (cs.takeWhile (fun c => c.isDigit), cs.dropWhile (fun c => c.isDigit))

def digitsToNat (ds : List Char) : Nat :=
  ds.foldl (fun a c => a * 10 + (c.toNat - '0'.toNat)) 0

/-- Optional fraction part `.digits` of a JSON number (digits, remaining). -/
def parseFrac (cs : List Char) : Option (List Char × List Char) :=
  match cs with
  | '.' :: rest =>
    let p := digitsSpan rest
    if p.1 = [] then none else some (p.1, p.2)
  | _ => some ([], cs)

/-- Optional exponent part `e[+-]digits` of a JSON number. -/
def parseExp (cs : List Char) : Option (Int × List Char) :=
  match cs with
  | c :: rest =>
    if c = 'e' ∨ c = 'E' then
      let sp : Int × List Char :=
        match rest with
        | '+' :: r => (1, r)
        | '-' :: r => (-1, r)
        | _ => (1, rest)
      let p := digitsSpan sp.2
      if p.1 = [] then none else some (sp.1 * (digitsToNat p.1 : Int), p.2)
    else some (0, cs)
  | [] => some (0, [])

/-- JSON number grammar: optional minus, integer part without leading
zeros, optional fraction, optional exponent.  The value is returned as
mantissa and decimal exponent: `digits.fracDigits × 10^e` is
`digitsToNat (digits ++ fracDigits) × 10^(e - |fracDigits|)`. -/
def parseNumber (cs : List Char) : Option ((Int × Int) × List Char) :=
  let sp : Bool × List Char :=
    match cs with
    | '-' :: rest => (true, rest)
    | _ => (false, cs)
  let dp := digitsSpan sp.2
  match dp.1 with
  | [] => none
  | d₀ :: drest =>
    if d₀ = '0' ∧ drest ≠ [] then none
    else
      match parseFrac dp.2 with
      | none => none
      | some (fds, cs₃) =>
        match parseExp cs₃ with
        | none => none
        | some (e, cs₄) =>
          let m : Int := (digitsToNat (dp.1 ++ fds) : Int)
          some (((if sp.1 then -m else m), e - (fds.length : Int)), cs₄)

mutual

/-- Fuel-indexed recursive-descent parser for a JSON value. -/
def parseValue : Nat → List Char → Option (Json × List Char)
  | 0, _ => none
  | Nat.succ fuel, cs =>
    match skipWs cs with
    | 'n' :: 'u' :: 'l' :: 'l' :: rest => some (Json.null, rest)
    | 't' :: 'r' :: 'u' :: 'e' :: rest => some (Json.bool true, rest)
    | 'f' :: 'a' :: 'l' :: 's' :: 'e' :: rest => some (Json.bool false, rest)
    | '"' :: rest =>
      match parseStringChars rest with
      | some (cs', rem) => some (Json.str (String.mk cs'), rem)
      | none => none
    | '[' :: rest =>
      match skipWs rest with
      | ']' :: rem => some (Json.arr [], rem)
      | cs' =>
        match parseElems fuel cs' with
        | some (xs, rem) => some (Json.arr xs, rem)
        | none => none
    | '\x7b' :: rest =>
      match skipWs rest with
      | '\x7d' :: rem => some (Json.obj [], rem)
      | cs' =>
        match parseMembers fuel cs' with
        | some (fs, rem) => some (Json.obj fs, rem)
        | none => none
    | cs' => (parseNumber cs').map (fun p => (Json.num p.1.1 p.1.2, p.2))

/-- Array elements after `[` (first element not yet consumed). -/
def parseElems : Nat → List Char → Option (List Json × List Char)
  | 0, _ => none
  | Nat.succ fuel, cs =>
    match parseValue fuel cs with
    | none => none
    | some (v, rest) =>
      match skipWs rest with
      | ',' :: rest₂ =>
        match parseElems fuel rest₂ with
        | some (xs, rem) => some (v :: xs, rem)
        | none => none
      | ']' :: rem => some ([v], rem)
      | _ => none

/-- Object members after an opening brace (first key not yet consumed). -/
def parseMembers : Nat → List Char → Option (List (String × Json) × List Char)
  | 0, _ => none
  | Nat.succ fuel, cs =>
    match skipWs cs with
    | '"' :: rest =>
      match parseStringChars rest with
      | none => none
      | some (kcs, rest₂) =>
        match skipWs rest₂ with
        | ':' :: rest₃ =>
          match parseValue fuel rest₃ with
          | none => none
          | some (v, rest₄) =>
            match skipWs rest₄ with
            | ',' :: rest₅ =>
              match parseMembers fuel rest₅ with
              | some (fs, rem) => some ((String.mk kcs, v) :: fs, rem)
              | none => none
            | '\x7d' :: rem => some ([(String.mk kcs, v)], rem)
            | _ => none
        | _ => none
    | _ => none

end

/-- `JSON.parse`: a single JSON value, possibly surrounded by whitespace,
spanning the whole input; `none` models a thrown `SyntaxError`.  The fuel
`2 * length + 4` dominates the recursion depth, which consumes at least one
character per two fuel steps. -/
def jsonParse (s : String) : Option Json :=
  match parseValue (2 * s.length + 4) s.data with
  | some (v, rest) => if skipWs rest = [] then some v else none
  | none => none

/-! ## The regex spans `/\{[\s\S]*\}/` and `/\[[\s\S]*\]/`

Both routes locate the JSON blob with `content.match(/\{[\s\S]*\}/)` (resp.
brackets).  The regex is greedy, so the match — when one exists — runs from
the first opening delimiter in the string to the last closing delimiter, and
a match exists exactly when some closing delimiter occurs after the first
opening one. -/

def firstIdxOf (c : Char) : List Char → Option Nat
  | [] => none
  | x :: rest => if x = c then some 0 else (firstIdxOf c rest).map (· + 1)

def lastIdxOf (c : Char) (cs : List Char) : Option Nat :=
  match firstIdxOf c cs.reverse with
  | some i => some (cs.length - 1 - i)
  | none => none

/-- The span matched by `/\{[\s\S]*\}/`: from the first brace-open to the
last brace-close, when the latter comes after the former. -/
def braceSpan (s : String) : Option String :=
  match firstIdxOf '\x7b' s.data, lastIdxOf '\x7d' s.data with
  | some i, some j => if i < j then some (String.mk ((s.data.drop i).take (j - i + 1))) else none
  | _, _ => none

/-- The span matched by `/\[[\s\S]*\]/`. -/
def bracketSpan (s : String) : Option String :=
  match firstIdxOf '[' s.data, lastIdxOf ']' s.data with
  | some i, some j => if i < j then some (String.mk ((s.data.drop i).take (j - i + 1))) else none
  | _, _ => none

/-! ## `maskApiKey` (`src/lib/api-keys.ts`) -/

/-- `maskApiKey`: `if (!key || key.length < 8) return '****'` (the empty
string has length `0 < 8`, so the falsy check is subsumed), else the first
four characters, an ellipsis of three dots, and the last four. -/
def maskApiKey (key : String) : String :=
  if key.length < 8 then "****"
  else String.mk (key.data.take 4) ++ "..." ++ String.mk (key.data.drop (key.length - 4))

/-- Substring containment, the sense in which a display string could leak
the full key. -/
def strContains (hay needle : List Char) : Prop :=
  ∃ s t, hay = s ++ needle ++ t

/-! ## API-key resolution -/

/-- First truthy value of a JavaScript `a || b || ...` chain over
string-or-undefined operands (the empty string is falsy). -/
def firstTruthy (xs : List (Option String)) : Option String :=
  xs.findSome? (fun o => o.bind (fun s => if s = "" then none else some s))

/-- The provider environment-variable names registered in `getEnvApiKey`,
in the order the source checks them. -/
def envVarNames : List String :=
  ["AI_API_KEY", "OPENAI_API_KEY", "ANTHROPIC_API_KEY", "GOOGLE_API_KEY",
   "COHERE_API_KEY", "HUGGINGFACE_API_KEY", "STABILITY_API_KEY",
   "REPLICATE_API_KEY", "TOGETHER_API_KEY", "MISTRAL_API_KEY", "XAI_API_KEY",
   "KIMI_API_KEY", "DEEPSEEK_API_KEY", "QWEN_API_KEY", "BAICHUAN_API_KEY",
   "YI_API_KEY", "INTERNLM_API_KEY", "ZHIPU_API_KEY"]

/-- `getEnvApiKey` (`src/lib/api-keys.ts`): `null` on the client
(`typeof window !== 'undefined'`), otherwise the first set, non-empty
registered environment variable.  The process environment is modelled as a
partial map from variable name to value. -/
def getEnvApiKey (isClient : Bool) (env : String → Option String) : Option String :=
  if isClient then none else firstTruthy (envVarNames.map env)

/-- One key record as persisted by `saveApiKey`: the `key` field holds the
AES ciphertext.  Fields not consulted during resolution (name, provider,
timestamps) are omitted. -/
structure StoredApiKey where
  id : String
  key : String
deriving DecidableEq

/-- `getActiveApiKey` (`src/lib/api-keys.ts`): environment first; then, on
the client only, the stored key whose id equals the persisted active-key id,
decrypted (`activeKey?.key || null` makes an empty decryption result
`null`).  `localStorage` contents are modelled as the already-parsed stored
list; `decrypt` models `decryptKey`. -/
def getActiveApiKey (isClient : Bool) (env : String → Option String)
    (stored : List StoredApiKey) (activeKeyId : Option String)
    (decrypt : String → String) : Option String :=
  match getEnvApiKey isClient env with
  | some k => some k
  | none =>
    if !isClient then none
    else
      match activeKeyId with
      | none => none
      | some kid =>
        if kid = "" then none
        else
          match stored.find? (fun r => r.id == kid) with
          | some r => if decrypt r.key = "" then none else some (decrypt r.key)
          | none => none

/-- `getApiKey` (`analyze-document/route.ts`, lines 356–362):
`headerKey || process.env.AI_API_KEY || process.env.GOOGLE_API_KEY`, throwing
a configuration error when all are falsy. -/
def getApiKey (headerKey : Option String) (env : String → Option String) :
    Except String String :=
  match firstTruthy [headerKey, env "AI_API_KEY", env "GOOGLE_API_KEY"] with
  | some k => Except.ok k
  | none =>
    Except.error "No API key configured. Set GOOGLE_API_KEY in your environment or add one in Settings."

/-- Resolution as the specification words it (C5): explicit request key,
then an environment key checked across all registered provider variables,
then the decrypted stored active key, then none.  This definition follows
the claim's words and exists to be compared with the code's resolvers. -/
def resolveKeyClaim (explicitKey : Option String) (env : String → Option String)
    (stored : List StoredApiKey) (activeKeyId : Option String)
    (decrypt : String → String) : Option String :=
  match firstTruthy [explicitKey] with
  | some k => some k
  | none =>
    match firstTruthy (envVarNames.map env) with
    | some k => some k
    | none =>
      match activeKeyId with
      | none => none
      | some kid =>
        match stored.find? (fun r => r.id == kid) with
        | some r => some (decrypt r.key)
        | none => none

/-! ## The Gemini gateway retry loop (`geminiFetch`, `analyze-document/route.ts` lines 304–354)

The loop runs `attempt = 0 .. retries` (default `retries = 3`).  Inside the
try block: a 429 response with `attempt < retries` sleeps
`2^(attempt+1) * 1000` ms and continues; any other non-OK response throws
`Gemini API error: <message>`.  That throw lands in the catch block, which
re-raises only when `attempt === retries` and otherwise lets the loop
continue — so non-429 failures are retried too, immediately, until the
attempts are exhausted.  The catch likewise swallows network-level fetch
failures until the final attempt. -/

/-- Outcome of one HTTP attempt: an OK response with body text, a non-OK
response with upstream status and error message, or a rejection of `fetch`
itself (network error) with its message. -/
inductive GeminiResp where
  | ok (data : String) : GeminiResp
  | httpErr (status : Nat) (msg : String) : GeminiResp
  | netErr (msg : String) : GeminiResp

deriving instance DecidableEq for Except

/-- What a call to `geminiFetch` did: its result (`Except.error` models the
function throwing), how many fetch attempts it made, and the backoff delays
(in milliseconds) it slept, in order. -/
structure FetchTrace where
  result : Except String String
  attempts : Nat
  delays : List Nat
deriving DecidableEq

/-- The retry loop of `geminiFetch`, from iteration `attempt` on, driven by
an oracle `resp` giving each attempt's outcome.  `rem = retries - attempt`
counts the attempts still allowed after this one, so `rem = 0` is the
iteration with `attempt === retries`, on which the catch block re-raises
instead of continuing.  With `rem` positive, a 429 prepends its backoff
delay `2^(attempt+1) * 1000` ms and continues; any other failure is caught
and the loop continues immediately, its message discarded. -/
def geminiFetchGo (resp : Nat → GeminiResp) : Nat → Nat → FetchTrace
  | attempt, 0 =>
    match resp attempt with
    | GeminiResp.ok d => { result := Except.ok d, attempts := 1, delays := [] }
    | GeminiResp.httpErr _ msg =>
      { result := Except.error ("Gemini API error: " ++ msg), attempts := 1, delays := [] }
    | GeminiResp.netErr msg => { result := Except.error msg, attempts := 1, delays := [] }
  | attempt, Nat.succ rem =>
    match resp attempt with
    | GeminiResp.ok d => { result := Except.ok d, attempts := 1, delays := [] }
    | GeminiResp.httpErr status _ =>
      if status = 429 then
        let t := geminiFetchGo resp (attempt + 1) rem
        { result := t.result, attempts := t.attempts + 1,
          delays := (2 ^ (attempt + 1) * 1000) :: t.delays }
      else
        let t := geminiFetchGo resp (attempt + 1) rem
        { result := t.result, attempts := t.attempts + 1, delays := t.delays }
    | GeminiResp.netErr _ =>
      let t := geminiFetchGo resp (attempt + 1) rem
      { result := t.result, attempts := t.attempts + 1, delays := t.delays }

/-- `geminiFetch` with its default bound `retries = 3`: the loop starts at
`attempt = 0` with 3 further attempts allowed. -/
def geminiFetch (resp : Nat → GeminiResp) : FetchTrace :=
  geminiFetchGo resp 0 3

/-! ## Extraction and compliance pipeline steps
(`analyze-document/route.ts`, multi-file POST, lines 377–634) -/

/-- `x || dflt` for a string-valued-or-absent JSON field (empty string,
`null` and `undefined` are falsy).  Non-string truthy values, which the
pipeline's prompts never produce, would be propagated unchanged by
JavaScript; they take the default here, and no claim depends on that
corner. -/
def strOrDefault (v : Option Json) (dflt : String) : String :=
  match v with
  | some (Json.str s) => if s = "" then dflt else s
  | _ => dflt

/-- `extractedText = extractedData.extractedText || content`. -/
def extractedTextFrom (j : Json) (content : String) : String :=
  match jsGet j "extractedText" with
  | some (Json.str s) => if s = "" then content else s
  | _ => content

/-- One extraction pass (route lines 454–483): an oracle error models the
gateway call throwing, which the catch turns into the
`documentType: 'unknown'` default with empty text; on a response, the first
brace span is parsed, and both a missing span and a parse failure fall back
to `documentType: 'Document'` with the whole response as text.  Returns
`(extractedData, extractedText)`. -/
def extractionStep (outcome : Except String String) : Json × String :=
  match outcome with
  | Except.error _ =>
    (Json.obj [("documentType", Json.str "unknown"), ("extractedText", Json.str "")], "")
  | Except.ok content =>
    match braceSpan content with
    | none =>
      (Json.obj [("documentType", Json.str "Document"), ("extractedText", Json.str content)],
       content)
    | some span =>
      match jsonParse span with
      | none =>
        (Json.obj [("documentType", Json.str "Document"), ("extractedText", Json.str content)],
         content)
      | some j => (j, extractedTextFrom j content)

/-- One compliance pass (route lines 517–535): a thrown gateway call, a
missing bracket span, and a parse failure all leave `issues = []`.  A span
that parses necessarily parses to an array (it starts with `[`); the
non-array case below is unreachable. -/
def complianceStep (outcome : Except String String) : List Json :=
  match outcome with
  | Except.error _ => []
  | Except.ok content =>
    match bracketSpan content with
    | none => []
    | some span =>
      match jsonParse span with
      | some (Json.arr xs) => xs
      | _ => []

/-- The numeric `confidence` field of a parsed issue.  A `null` or missing
field behaves exactly like `none` in the source (`undefined > 1` is false,
`undefined || 0.75` takes the default); non-numeric confidences, which the
prompts rule out, would be coerced by JavaScript and are outside this
model. -/
def confOf (issue : Json) : Option ℚ :=
  match jsGet issue "confidence" with
  | some (Json.num m e) => some (jnumVal m e)
  | _ => none

/-- `issue.confidence > 1 ? issue.confidence / 100 : issue.confidence || 0.75`
(route line 565): values above 1 are divided by 100; otherwise the value
passes through unless it is falsy (0 or absent), in which case the default
0.75 applies. -/
def normalizeConfidence (c : Option ℚ) : ℚ :=
  match c with
  | some c => if 1 < c then c / 100 else if c = 0 then 0.75 else c
  | none => 0.75

/-- `severityScore` (route lines 368–375): `type?.toLowerCase()` switch. -/
def severityScore (t : Option String) : ℚ :=
  match t with
  | some s =>
    if s.toLower = "critical" then 0.9
    else if s.toLower = "warning" then 0.6
    else if s.toLower = "info" then 0.3
    else 0.3
  | none => 0.3

/-- The string `type` field of a parsed issue, when present. -/
def typeStrOf (issue : Json) : Option String :=
  match jsGet issue "type" with
  | some (Json.str s) => some s
  | _ => none

/-- One persisted issue row (`db.issue.create`, route lines 558–569);
`reportId` is implicit since the handler writes a single report. -/
structure IssueRow where
  type : String
  title : String
  description : String
  recommendation : String
  confidence : ℚ
  severity : ℚ
  resolved : Bool
deriving DecidableEq

def validTypes : List String := ["CRITICAL", "WARNING", "INFO"]

/-- Issue-row construction (route lines 553–569). -/
def mkIssueRow (issue : Json) : IssueRow :=
  let rawType := (strOrDefault (jsGet issue "type") "INFO").toUpper
  let normalizedType := if rawType ∈ validTypes then rawType else "INFO"
  { type := normalizedType,
    title := strOrDefault (jsGet issue "title") "Untitled Issue",
    description := strOrDefault (jsGet issue "description") "No description provided",
    recommendation := strOrDefault (jsGet issue "recommendation") "Review this item",
    confidence := normalizeConfidence (confOf issue),
    severity := severityScore (typeStrOf issue),
    resolved := false }

/-- One entry of the response's `issues` array (`allIssues.push`, route
lines 571–578; the generated row id is omitted). -/
structure IssueEntry where
  type : String
  title : String
  description : String
  recommendation : String
  confidence : ℚ
deriving DecidableEq

def mkIssueEntry (issue : Json) : IssueEntry :=
  let rawType := (strOrDefault (jsGet issue "type") "INFO").toUpper
  let normalizedType := if rawType ∈ validTypes then rawType else "INFO"
  { type := normalizedType,
    title := strOrDefault (jsGet issue "title") "Untitled Issue",
    description := strOrDefault (jsGet issue "description") "No description provided",
    recommendation := strOrDefault (jsGet issue "recommendation") "Review this item",
    confidence := normalizeConfidence (confOf issue) }

/-- `Number(x.toFixed(2))`: rounding to two decimals.  (`toFixed` acts on a
binary double, whose ties can fall either way; no claim depends on tie
behaviour.) -/
def round2 (q : ℚ) : ℚ := (round (q * 100) : ℚ) / 100

/-- `calculateDocConfidence` (route lines 627–634). -/
def calculateDocConfidence (issues : List Json) (extractedText : String) : ℚ :=
  let textConfidence : ℚ := if 50 < extractedText.length then 0.9 else 0.6
  let issueConfidence : ℚ :=
    if 0 < issues.length then
      ((issues.map (fun i => normalizeConfidence (confOf i))).sum) / (issues.length : ℚ)
    else 0.85
  round2 (textConfidence * 0.6 + issueConfidence * 0.4)

/-- `parseFloat`: optional surrounding whitespace and sign, then a decimal
prefix with optional fraction and exponent; `none` models `NaN`.  (The
`Infinity` literal is not modelled; it never feeds this pipeline.) -/
def jsParseFloat (s : String) : Option ℚ :=
  let isWsC := fun (c : Char) =>
    c = ' ' ∨ c = '\t' ∨ c = '\n' ∨ c = '\r' ∨ c = '\x0C' ∨ c = '\x0B'
  let cs := s.data.dropWhile isWsC
  let sp : Bool × List Char :=
    match cs with
    | '-' :: r => (true, r)
    | '+' :: r => (false, r)
    | _ => (false, cs)
  let ip := digitsSpan sp.2
  let fp : List Char × List Char :=
    match ip.2 with
    | '.' :: r => digitsSpan r
    | _ => ([], ip.2)
  if ip.1 = [] ∧ fp.1 = [] then none
  else
    let base : ℚ := (digitsToNat ip.1 : ℚ) + (digitsToNat fp.1 : ℚ) / (10 : ℚ) ^ fp.1.length
    let e : Int :=
      match fp.2 with
      | c :: r =>
        if c = 'e' ∨ c = 'E' then
          let esp : Int × List Char :=
            match r with
            | '+' :: rr => (1, rr)
            | '-' :: rr => (-1, rr)
            | _ => (1, r)
          let ep := digitsSpan esp.2
          if ep.1 = [] then 0 else esp.1 * (digitsToNat ep.1 : Int)
        else 0
      | [] => 0
    some (if sp.1 then -(base * (10 : ℚ) ^ e) else base * (10 : ℚ) ^ e)

/-- The amount a file contributes (route lines 581–582):
`docAmount = extractedData.totalAmount || 0` then
`typeof docAmount === 'number' ? docAmount : parseFloat(String(docAmount)) || 0`.
Booleans and plain objects stringify to non-numeric text (`parseFloat`
gives `NaN`, hence 0); an array can stringify to a numeric string — that
corner, which the extraction prompt never produces, is collapsed to 0
here. -/
def amountOf (extractedData : Json) : ℚ :=
  match jsGet extractedData "totalAmount" with
  | some (Json.num m e) => jnumVal m e
  | some (Json.str s) => if s = "" then 0 else (jsParseFloat s).getD 0
  | _ => 0

/-! ## The multi-file intake handler (`analyze-document/route.ts` POST, lines 377–625) -/

/-- One uploaded file part. -/
structure FileIn where
  name : String
  ftype : String
  size : Nat
deriving DecidableEq

/-- The gateway oracle: the outcome of the extraction call and of the
compliance call for the file at each position (`Except.error` models the
call throwing — network failure, timeout, exhausted retries). -/
structure Oracle where
  extraction : Nat → Except String String
  compliance : Nat → Except String String

/-- One persisted document row (`db.acquittalDocument.create`, route lines
538–550).  The source serialises `extractedData` with `JSON.stringify`; the
merged object itself is stored here. -/
structure DocRow where
  fileName : String
  fileType : String
  fileSize : Nat
  filePath : String
  extractedData : Json

/-- `{ ...extractedData, analysisTimestamp: iso }`.  `extractedData` is
always an object here (every branch of `extractionStep` yields one); the
appended binding wins on a key clash, matching spread semantics under
`jsGet`'s last-binding rule. -/
def withTimestamp (j : Json) (iso : String) : Json :=
  match j with
  | Json.obj fs => Json.obj (fs ++ [("analysisTimestamp", Json.str iso)])
  | _ => Json.obj [("analysisTimestamp", Json.str iso)]

/-- Everything the loop body produces for one file.  `nowTs` stands for
`Date.now()` in the saved file name and `iso` for the ISO timestamp. -/
structure FileResult where
  extractedData : Json
  extractedText : String
  issuesRaw : List Json
  doc : DocRow
  issueRows : List IssueRow
  entries : List IssueEntry
  amount : ℚ
  docConfidence : ℚ

/-- The per-file loop body (route lines 409–584) for the file at position
`i`. -/
def processFile (oracle : Oracle) (nowTs iso : String) (i : Nat) (f : FileIn) :
    FileResult :=
  let ed := extractionStep (oracle.extraction i)
  let issues := complianceStep (oracle.compliance i)
  { extractedData := ed.1,
    extractedText := ed.2,
    issuesRaw := issues,
    doc := { fileName := f.name, fileType := f.ftype, fileSize := f.size,
             filePath := "uploads/akuit/" ++ nowTs ++ "-" ++ f.name,
             extractedData := withTimestamp ed.1 iso },
    issueRows := issues.map mkIssueRow,
    entries := issues.map mkIssueEntry,
    amount := amountOf ed.1,
    docConfidence := calculateDocConfidence issues ed.2 }

/-- The final report row after the closing update (route lines 590–599). -/
structure ReportRow where
  name : String
  status : String
  totalAmount : Option ℚ
  confidence : ℚ
  summary : String
deriving DecidableEq

structure AnalyzeSummary where
  totalIssues : Nat
  criticalIssues : Nat
  warningIssues : Nat
  infoIssues : Nat
deriving DecidableEq

/-- The JSON envelope the handler answers with, together with its HTTP
status. -/
structure AnalyzeResponse where
  status : Nat
  success : Bool
  error : Option String
  totalAmount : Option ℚ
  confidence : Option ℚ
  issues : List IssueEntry
  summary : Option AnalyzeSummary
deriving DecidableEq

/-- The observable outcome of one POST: the response plus the rows left in
the store. -/
structure HandlerOutcome where
  response : AnalyzeResponse
  report : Option ReportRow
  docs : List DocRow
  issueRows : List IssueRow

/-- `extractedData.documentType && extractedData.documentType !== 'unknown'`
(route line 485), restricted to string values as produced by the
pipeline. -/
def docTypeName (j : Json) : Option String :=
  match jsGet j "documentType" with
  | some (Json.str s) => if s ≠ "" ∧ s ≠ "unknown" then some s else none
  | _ => none

/-- The handler body after key resolution and form parsing: the
empty-file-set guard (lines 387–392, before any store write), then the
per-file loop and the closing report update.  `dateStr` stands for
`new Date().toLocaleDateString()`. -/
def analyzeDocumentBody (files : List FileIn) (oracle : Oracle)
    (dateStr nowTs iso : String) : HandlerOutcome :=
  if files.length = 0 then
    { response := { status := 400, success := false, error := some "No files provided",
                    totalAmount := none, confidence := none, issues := [],
                    summary := none },
      report := none, docs := [], issueRows := [] }
  else
    let results := files.enum.map (fun p => processFile oracle nowTs iso p.1 p.2)
    let allEntries := (results.map (fun r => r.entries)).flatten
    let allRows := (results.map (fun r => r.issueRows)).flatten
    let totalAmountSum := (results.map (fun r => r.amount)).sum
    let confidenceSum := (results.map (fun r => r.docConfidence)).sum
    let overallConfidence := round2 (confidenceSum / (files.length : ℚ))
    let reportName :=
      match results.findSome? (fun r => docTypeName r.extractedData) with
      | some dt => dt ++ " Report - " ++ dateStr
      | none => ""
    let finalName := if reportName = "" then "Acquittal Report - " ++ dateStr else reportName
    let nIssues := allEntries.length
    { response := { status := 200, success := true, error := none,
                    totalAmount := if 0 < totalAmountSum then some totalAmountSum else none,
                    confidence := some overallConfidence,
                    issues := allEntries,
                    summary := some
                      { totalIssues := nIssues,
                        criticalIssues := (allEntries.filter (fun e => e.type == "CRITICAL")).length,
                        warningIssues := (allEntries.filter (fun e => e.type == "WARNING")).length,
                        infoIssues := (allEntries.filter (fun e => e.type == "INFO")).length } },
      report := some { name := finalName, status := "REVIEWED",
                       totalAmount := if 0 < totalAmountSum then some totalAmountSum else none,
                       confidence := overallConfidence,
                       summary := "Analyzed " ++ toString files.length ++
                                  " document(s). Found " ++ toString nIssues ++
                                  " compliance issue(s)." },
      docs := results.map (fun r => r.doc),
      issueRows := allRows }

/-- The whole POST: `getApiKey` runs first, and a thrown configuration
error reaches the outer catch, which answers 500 with the message. -/
def analyzeDocumentPOST (headerKey : Option String) (env : String → Option String)
    (files : List FileIn) (oracle : Oracle) (dateStr nowTs iso : String) :
    HandlerOutcome :=
  match getApiKey headerKey env with
  | Except.error msg =>
    { response := { status := 500, success := false, error := some msg,
                    totalAmount := none, confidence := none, issues := [],
                    summary := none },
      report := none, docs := [], issueRows := [] }
  | Except.ok _ => analyzeDocumentBody files oracle dateStr nowTs iso

/-- The intake guard of the sibling handler (`analyze/route.ts` POST, lines
186–203): the empty-file-set check precedes the report create, so on an
empty set the handler answers 400 having written nothing; `rest` abstracts
the remainder of that handler, which begins with the report create. -/
def analyzePOSTGuard (files : List FileIn) (rest : Unit → HandlerOutcome) :
    HandlerOutcome :=
  if files.length = 0 then
    { response := { status := 400, success := false, error := some "No files provided",
                    totalAmount := none, confidence := none, issues := [],
                    summary := none },
      report := none, docs := [], issueRows := [] }
  else rest ()

/-! ## The report DELETE handler (`reports/[id]/route.ts`, lines 51–95) -/

/-- A persisted document row, as the DELETE handler sees it. -/
structure DbDocument where
  id : Nat
  reportId : Nat
  filePath : String
deriving DecidableEq

structure DbIssue where
  id : Nat
  reportId : Nat
deriving DecidableEq

structure DbReport where
  id : Nat
deriving DecidableEq

/-- The three tables. -/
structure Db where
  reports : List DbReport
  documents : List DbDocument
  issues : List DbIssue
deriving DecidableEq

/-- The file-cleanup loop (route lines 69–77): for each child document,
`existsSync` then `unlink`, with an unlink failure caught and logged.  The
filesystem is the predicate `fs` (`existsSync`); `uf p = true` means
`unlink p` throws.  Returns the filesystem afterwards and the logged
failure paths. -/
def unlinkDocs (uf : String → Bool) (docs : List DbDocument) (fs : String → Bool) :
    (String → Bool) × List String :=
  match docs with
  | [] => (fs, [])
  | d :: rest =>
    if fs d.filePath then
      if uf d.filePath then
        let r := unlinkDocs uf rest fs
        (r.1, d.filePath :: r.2)
      else unlinkDocs uf rest (fun q => if q = d.filePath then false else fs q)
    else unlinkDocs uf rest fs

structure DeleteResponse where
  status : Nat
  success : Bool
  message : String
deriving DecidableEq

/-- `db.acquittalReport.delete` of the `@/lib/db` better-sqlite3 wrapper
(the staged db layer of `src/scripts/reset-dataset.ts`, lines 194–197):
`DELETE FROM AcquittalReport WHERE id = ?`.  The wrapper opens the database
with `pragma('foreign_keys = ON')` and creates `AcquittalDocument` and
`Issue` with `FOREIGN KEY (reportId) REFERENCES AcquittalReport(id) ON
DELETE CASCADE` (lines 57, 81, 97), so SQLite removes every child document
and issue row carrying the deleted report's id along with the report
row. -/
def acquittalReportDelete (db : Db) (reportId : Nat) : Db :=
  { reports := db.reports.filter (fun r => r.id != reportId),
    documents := db.documents.filter (fun d => d.reportId != reportId),
    issues := db.issues.filter (fun i => i.reportId != reportId) }

/-- The DELETE handler (`reports/[id]/route.ts`, lines 51–95): find the
report with its documents (404 when absent), attempt to unlink every
child document's backing file tolerating per-file errors, then delete the
report row — the `ON DELETE CASCADE` foreign keys of the `@/lib/db` layer
removing the child rows.  Returns the store, the filesystem, the logged
failures and the response. -/
def deleteReportDELETE (db : Db) (fs : String → Bool) (uf : String → Bool)
    (reportId : Nat) : Db × (String → Bool) × List String × DeleteResponse :=
  match db.reports.find? (fun r => r.id == reportId) with
  | none => (db, fs, [], { status := 404, success := false, message := "Report not found" })
  | some _ =>
    let docs := db.documents.filter (fun d => d.reportId == reportId)
    let u := unlinkDocs uf docs fs
    (acquittalReportDelete db reportId, u.1, u.2,
     { status := 200, success := true,
       message := "Report and associated files deleted successfully" })

/-! ## Image-quality heuristics (`src/lib/document-processor.ts`) -/

/-- One RGBA pixel of a decoded buffer (each channel a byte of a
`Uint8ClampedArray`). -/
structure Pixel where
  r : Nat
  g : Nat
  b : Nat
  a : Nat
deriving DecidableEq

/-- Per-pixel brightness `(r + g + b) / 3`. -/
def brightnessOf (p : Pixel) : ℚ := ((p.r : ℚ) + (p.g : ℚ) + (p.b : ℚ)) / 3

structure QualityStats where
  brightness : ℚ
  contrast : ℚ
  isGrayscale : Bool
deriving DecidableEq

/-- `analyzeImageQuality` (lines 82–117): mean brightness, contrast as max
minus min brightness (accumulators initialised to 255 and 0), and the
grayscale flag from the mean colour variance.  `getImageData` never yields
an empty buffer; on one, the JavaScript averages would be `NaN` (here the
`ℚ` division by zero gives 0) and the contrast −255, which is why the
bounds theorem assumes a pixel exists. -/
def analyzeImageQuality (pixels : List Pixel) : QualityStats :=
  let totalBrightness := (pixels.map brightnessOf).sum
  let minBrightness := pixels.foldl (fun m p => min m (brightnessOf p)) 255
  let maxBrightness := pixels.foldl (fun m p => max m (brightnessOf p)) 0
  let colorVariance :=
    (pixels.map (fun p =>
      |(p.r : ℚ) - (p.g : ℚ)| + |(p.g : ℚ) - (p.b : ℚ)| + |(p.b : ℚ) - (p.r : ℚ)|)).sum
  let pixelCount : ℚ := (pixels.length : ℚ)
  { brightness := totalBrightness / pixelCount,
    contrast := maxBrightness - minBrightness,
    isGrayscale := decide (colorVariance / pixelCount < 30) }

/-- The indices visited by a JavaScript `for (v = a; v < bound; v += step)`
loop (`⌈(bound − a) / step⌉` of them, starting at `a`). -/
def sampleIdx (a bound step : Nat) : List Nat :=
  List.range' a ((bound - a + step - 1) / step) step

/-- The edge strength sampled at `(y, x)` (lines 179–185): the larger of
the left- and top-neighbour red-channel differences at `i = (y*w + x)*4`.
`d` is the flat RGBA data array (the reads are in range for a real buffer
whenever the loops run). -/
def edgeStrengthAt (w : Nat) (d : Nat → ℚ) (y x : Nat) : ℚ :=
  let i := (y * w + x) * 4
  let leftDiff := |d i - d (i - 4)|
  let topDiff := |d i - d (i - w * 4)|
  max leftDiff topDiff

/-- `calculateSharpness` (lines 168–195): both coordinates run from 1 in
steps of 10 while below `height − 1` (outer) and `width − 1` (inner);
strengths above the threshold 20 are accumulated, and the result is their
mean, or 0 when no sample qualifies. -/
def calculateSharpness (w h : Nat) (d : Nat → ℚ) : ℚ :=
  let strengths :=
    (sampleIdx 1 (h - 1) 10).flatMap (fun y =>
      (sampleIdx 1 (w - 1) 10).map (fun x => edgeStrengthAt w d y x))
  let qualifying := strengths.filter (fun e => decide (20 < e))
  if 0 < qualifying.length then qualifying.sum / (qualifying.length : ℚ) else 0

/-! ## Document-type detection (`detectDocumentType`, lines 243–331)

The sampling loop and classification that run once the image has decoded
(the `img.onload` body, lines 257–318); the surrounding promise and object
URL plumbing carry no data into the classification. -/

/-- The sampling loop (lines 270–289) over the flat RGBA array of length
`n`: every 16th index (every 4th pixel); local noise against the sample 64
bytes back once `i > 64`; an edge count against the red channel 64 bytes
ahead while `i + 64 < n`.  Returns `(noiseLevel, edgeDensity)`. -/
def detectLoop (n : Nat) (d : Nat → ℚ) (i : Nat) : ℚ × Nat :=
  if _h : i < n then
    let noise :=
      if 64 < i then
        |d i - d (i - 64)| + |d (i + 1) - d (i - 63)| + |d (i + 2) - d (i - 62)|
      else 0
    let edge : Nat := if i + 64 < n ∧ 30 < |d i - d (i + 64)| then 1 else 0
    let rest := detectLoop n d (i + 16)
    (noise + rest.1, edge + rest.2)
  else (0, 0)
termination_by n - i
decreasing_by omega

structure DocTypeResult where
  dtype : String
  confidence : ℚ
  reason : String
deriving DecidableEq

/-- The classification (lines 291–318): normalised noise and edge density,
then the scanned / digital / mixed decision with its confidence and reason
strings. -/
def detectDocumentTypeCore (n : Nat) (d : Nat → ℚ) : DocTypeResult :=
  let acc := detectLoop n d 0
  let pixelCount : ℚ := (n : ℚ) / 4
  let normalizedNoise := (acc.1 / (pixelCount / 4)) / 3
  let normalizedEdgeDensity := (acc.2 : ℚ) / (pixelCount / 64)
  if 25 < normalizedNoise ∧ (0.15 : ℚ) < normalizedEdgeDensity then
    { dtype := "scanned",
      confidence := min 90 (60 + normalizedNoise + normalizedEdgeDensity * 100),
      reason := "High noise level and edge density indicate scanned document" }
  else if normalizedNoise < 15 ∧ normalizedEdgeDensity < (0.08 : ℚ) then
    { dtype := "digital",
      confidence := min 95 (80 + (20 - normalizedNoise)),
      reason := "Clean digital characteristics detected" }
  else
    { dtype := "mixed", confidence := 60,
      reason := "Mixed characteristics - may be a scan of a digital document" }

/-! # Theorems

## C7 — `maskApiKey` -/

/-- The long-key branch, spelled as characters: first four characters, a
three-dot ellipsis, the last four characters. -/
theorem maskApiKey_keeps_ends (key : String) (h : 8 ≤ key.length) :
    (maskApiKey key).data =
      key.data.take 4 ++ ['.', '.', '.'] ++ key.data.drop (key.length - 4) := by
  unfold maskApiKey
  rw [if_neg (by omega)]
  simp [String.data_append]

/-- C7, counterexample: the claim asserts the masked output never contains
the original full key as a substring, but the key `"****"` (length < 8)
masks to the fixed `"****"`, which is the key itself. -/
theorem maskApiKey_counterexample :
    maskApiKey "****" = "****" ∧ strContains (maskApiKey "****").data "****".data :=
  ⟨rfl, ⟨[], [], rfl⟩⟩

/-- C7, amended: keys shorter than 8 characters mask to the fixed `"****"`;
keys of length at least 8 mask to the first four characters, an ellipsis,
and the last four; and for keys of length at least 8 containing no `'.'`
character the masked output never contains the full key as a substring (a
key containing dots, or a short key such as `"****"` itself, can coincide
with its mask). -/
theorem maskApiKey_spec (key : String) :
    (key.length < 8 → maskApiKey key = "****") ∧
    (8 ≤ key.length →
      (maskApiKey key).data =
        key.data.take 4 ++ ['.', '.', '.'] ++ key.data.drop (key.length - 4)) ∧
    (8 ≤ key.length → (∀ c ∈ key.data, c ≠ '.') →
      ¬ strContains (maskApiKey key).data key.data) := by
  refine ⟨fun h => ?_, fun h => maskApiKey_keeps_ends key h, fun h8 hdot hcon => ?_⟩
  · unfold maskApiKey
    rw [if_pos h]
  · obtain ⟨s, t, hm⟩ := hcon
    have hdata : key.length = key.data.length := rfl
    have htake : (key.data.take 4).length = 4 := by rw [List.length_take]; omega
    have hmask := maskApiKey_keeps_ends key h8
    have hmlen : (maskApiKey key).data.length = 11 := by
      rw [hmask]
      simp [List.length_append, htake, List.length_drop]
      omega
    have hslen : s.length ≤ 3 := by
      have hl := congrArg List.length hm
      rw [hmlen] at hl
      simp [List.length_append] at hl
      omega
    have hdot4 : (maskApiKey key).data[4]? = some '.' := by
      rw [hmask]
      rw [List.getElem?_append_left
            (by simp [List.length_append, htake] : 4 < (key.data.take 4 ++ ['.', '.', '.']).length)]
      rw [List.getElem?_append_right (by omega : (key.data.take 4).length ≤ 4)]
      simp [htake]
    have hkey4 : (maskApiKey key).data[4]? = key.data[4 - s.length]? := by
      rw [hm]
      rw [List.getElem?_append_left
            (by simp [List.length_append]; omega : 4 < (s ++ key.data).length)]
      rw [List.getElem?_append_right (by omega : s.length ≤ 4)]
    have h4lt : 4 - s.length < key.data.length := by omega
    obtain ⟨a, ha⟩ : ∃ a, key.data[4 - s.length]? = some a :=
      ⟨_, List.getElem?_eq_getElem h4lt⟩
    have hmem : a ∈ key.data := List.getElem?_mem ha
    have haeq : a = '.' := by
      rw [hkey4, ha] at hdot4
      exact (Option.some.injEq _ _).mp hdot4
    exact hdot a hmem haeq

/-- C7 witness: the amended statement at the concrete keys `"abc"` and
`"sk-test-KEY99234"`. -/
theorem maskApiKey_spec_witness :
    maskApiKey "abc" = "****" ∧
    (maskApiKey "sk-test-KEY99234").data =
      "sk-test-KEY99234".data.take 4 ++ ['.', '.', '.'] ++
        "sk-test-KEY99234".data.drop ("sk-test-KEY99234".length - 4) ∧
    ¬ strContains (maskApiKey "sk-test-KEY99234").data "sk-test-KEY99234".data :=
  ⟨(maskApiKey_spec "abc").1 (by decide),
   (maskApiKey_spec "sk-test-KEY99234").2.1 (by decide),
   (maskApiKey_spec "sk-test-KEY99234").2.2 (by decide) (by decide)⟩

/-! ## C2 — issue-confidence normalization -/

/-- A parsed issue whose model-reported confidence is 0 (a value inside
`[0,1]`). -/
def issueZeroConf : Json :=
  Json.obj [("type", Json.str "INFO"), ("title", Json.str "t"),
            ("confidence", Json.num 0 0)]

/-- A parsed issue with the 0–100-scale confidence 95 from the spec's
scenario. -/
def issue95 : Json :=
  Json.obj [("type", Json.str "warning"), ("title", Json.str "t"),
            ("confidence", Json.num 95 0)]

/-- C2, counterexample: a model-reported confidence of 0 lies in `[0,1]`
but is not stored unchanged — `issue.confidence || 0.75` treats 0 as falsy,
so the row gets the default 0.75. -/
theorem confidence_zero_counterexample :
    jnumVal 0 0 = 0 ∧
    (mkIssueRow issueZeroConf).confidence = 0.75 ∧
    (mkIssueRow issueZeroConf).confidence ≠ 0 := by
  have h : (mkIssueRow issueZeroConf).confidence = normalizeConfidence (some (jnumVal 0 0)) := rfl
  have hz : jnumVal 0 0 = 0 := by norm_num [jnumVal]
  refine ⟨hz, ?_, ?_⟩ <;> rw [h, hz] <;> norm_num [normalizeConfidence]

/-- C2, amended: a reported confidence strictly above 1 is stored divided
by 100, and a reported value in the half-open interval `(0, 1]` is stored
unchanged; a reported 0 — though inside `[0,1]` — is replaced by the
default 0.75, exactly like a missing value.  In particular a response
confidence of 95 is stored as 0.95. -/
theorem normalizeConfidence_spec (c : ℚ) :
    (1 < c → normalizeConfidence (some c) = c / 100) ∧
    (0 < c → c ≤ 1 → normalizeConfidence (some c) = c) ∧
    normalizeConfidence (some 0) = 0.75 ∧
    normalizeConfidence none = 0.75 ∧
    (mkIssueRow issue95).confidence = 0.95 ∧
    (∀ issue : Json, (mkIssueRow issue).confidence = normalizeConfidence (confOf issue)) := by
  refine ⟨fun h => ?_, fun h1 h2 => ?_, by norm_num [normalizeConfidence], rfl, ?_, fun _ => rfl⟩
  · rw [normalizeConfidence, if_pos h]
  · rw [normalizeConfidence, if_neg (by linarith), if_neg (by positivity)]
  · have h : (mkIssueRow issue95).confidence = normalizeConfidence (some (jnumVal 95 0)) := rfl
    rw [h]
    norm_num [normalizeConfidence, jnumVal]

/-- C2 witness: the amended statement at the concrete confidences 95
(divided by 100) and 1/2 (unchanged). -/
theorem normalizeConfidence_spec_witness :
    normalizeConfidence (some 95) = 95 / 100 ∧
    normalizeConfidence (some (1 / 2)) = 1 / 2 :=
  ⟨(normalizeConfidence_spec 95).1 (by norm_num),
   (normalizeConfidence_spec (1 / 2)).2.1 (by norm_num) (by norm_num)⟩

/-! ## C4 — gateway retry policy -/

/-- An upstream that answers HTTP 500 with message `boom` on every
attempt. -/
def resp500 : Nat → GeminiResp := fun _ => GeminiResp.httpErr 500 "boom"

/-- C4, counterexample: the claim says a non-429 failure is not retried
(the call fails immediately, after one attempt).  But the `throw` for a
non-OK response sits inside the try block, and the catch re-raises only on
the final iteration — so a constant-500 upstream is fetched four times
(the initial attempt plus 3 retries, with no backoff delay) before the
error, with the upstream message attached, propagates. -/
theorem geminiFetch_non429_counterexample :
    (geminiFetch resp500).attempts = 4 ∧
    (geminiFetch resp500).attempts ≠ 1 ∧
    (geminiFetch resp500).result = Except.error "Gemini API error: boom" ∧
    (geminiFetch resp500).delays = [] := by
  refine ⟨rfl, ?_, rfl, rfl⟩
  intro h
  rw [show (geminiFetch resp500).attempts = 4 from rfl] at h
  exact absurd h (by decide)

/-- C4, amended: a rate-limited (429) attempt is retried up to the fixed
bound of 3 retries with exponentially doubling delays of 2s, 4s and 8s, and
when every attempt is rate-limited the final throw carries the upstream
message of the last response; but any other failing attempt before the
bound is *also* retried — immediately, with no delay — rather than failing
at once: the upstream error surfaces (message attached) only on the final
attempt.  A successful attempt returns at once. -/
theorem geminiFetch_retry_spec (resp : Nat → GeminiResp) (m : Nat → String) :
    ((∀ i, i ≤ 3 → resp i = GeminiResp.httpErr 429 (m i)) →
      geminiFetch resp =
        { result := Except.error ("Gemini API error: " ++ m 3), attempts := 4,
          delays := [2000, 4000, 8000] }) ∧
    (∀ s msg, resp 0 = GeminiResp.httpErr s msg → s ≠ 429 →
      geminiFetch resp =
        { result := (geminiFetchGo resp 1 2).result,
          attempts := (geminiFetchGo resp 1 2).attempts + 1,
          delays := (geminiFetchGo resp 1 2).delays }) ∧
    (∀ s msg, resp 3 = GeminiResp.httpErr s msg →
      (geminiFetchGo resp 3 0).result = Except.error ("Gemini API error: " ++ msg)) ∧
    (∀ dta, resp 0 = GeminiResp.ok dta →
      geminiFetch resp = { result := Except.ok dta, attempts := 1, delays := [] }) := by
  refine ⟨fun h429 => ?_, fun s msg h0 hs => ?_, fun s msg h3 => ?_, fun dta h0 => ?_⟩
  · have e0 := h429 0 (by omega)
    have e1 := h429 1 (by omega)
    have e2 := h429 2 (by omega)
    have e3 := h429 3 (by omega)
    show geminiFetchGo resp 0 3 = _
    simp [geminiFetchGo, e0, e1, e2, e3]
  · show geminiFetchGo resp 0 3 = _
    simp [geminiFetchGo, h0, hs]
  · simp [geminiFetchGo, h3]
  · show geminiFetchGo resp 0 3 = _
    simp [geminiFetchGo, h0]

/-- C4 witness: the amended statement at a constant-429 upstream (3 backoff
delays, then the attached message), at `resp500` (the non-429 failure is
followed by further attempts), and at an immediately successful upstream. -/
theorem geminiFetch_retry_spec_witness :
    geminiFetch (fun _ => GeminiResp.httpErr 429 "rate") =
      { result := Except.error "Gemini API error: rate", attempts := 4,
        delays := [2000, 4000, 8000] } ∧
    geminiFetch resp500 =
      { result := (geminiFetchGo resp500 1 2).result,
        attempts := (geminiFetchGo resp500 1 2).attempts + 1,
        delays := (geminiFetchGo resp500 1 2).delays } ∧
    (geminiFetchGo resp500 3 0).result = Except.error "Gemini API error: boom" ∧
    geminiFetch (fun _ => GeminiResp.ok "body") =
      { result := Except.ok "body", attempts := 1, delays := [] } :=
  ⟨(geminiFetch_retry_spec (fun _ => GeminiResp.httpErr 429 "rate") (fun _ => "rate")).1
      (fun _ _ => rfl),
   (geminiFetch_retry_spec resp500 (fun _ => "")).2.1 500 "boom" rfl (by decide),
   (geminiFetch_retry_spec resp500 (fun _ => "")).2.2.1 500 "boom" rfl,
   (geminiFetch_retry_spec (fun _ => GeminiResp.ok "body") (fun _ => "")).2.2.2 "body" rfl⟩

/-! ## C10 — empty upload set -/

/-- An oracle whose calls all succeed with an empty response (never reached
by an empty batch). -/
def oracleOk : Oracle := ⟨fun _ => Except.ok "", fun _ => Except.ok ""⟩

/-- An arbitrary concrete handler outcome, used to stand for the rest of
the sibling handler. -/
def emptyOutcome : HandlerOutcome := analyzeDocumentBody [] oracleOk "" "" ""

/-- C10: a request whose form data carries zero `files` parts is answered
with HTTP 400, `success: false` and the error `No files provided`, and no
report, document or issue row is created — the files check precedes the
report create in both intake handlers (for `analyze-document` this is so
once key resolution has succeeded, which runs first). -/
theorem noFiles_returns_400 (headerKey : Option String) (env : String → Option String)
    (oracle : Oracle) (dateStr nowTs iso : String) (k : String)
    (hkey : getApiKey headerKey env = Except.ok k)
    (rest : Unit → HandlerOutcome) :
    ((analyzeDocumentPOST headerKey env [] oracle dateStr nowTs iso).response.status = 400 ∧
     (analyzeDocumentPOST headerKey env [] oracle dateStr nowTs iso).response.success = false ∧
     (analyzeDocumentPOST headerKey env [] oracle dateStr nowTs iso).response.error =
       some "No files provided" ∧
     (analyzeDocumentPOST headerKey env [] oracle dateStr nowTs iso).report = none ∧
     (analyzeDocumentPOST headerKey env [] oracle dateStr nowTs iso).docs = [] ∧
     (analyzeDocumentPOST headerKey env [] oracle dateStr nowTs iso).issueRows = []) ∧
    ((analyzePOSTGuard [] rest).response.status = 400 ∧
     (analyzePOSTGuard [] rest).response.error = some "No files provided" ∧
     (analyzePOSTGuard [] rest).report = none) := by
  have h : analyzeDocumentPOST headerKey env [] oracle dateStr nowTs iso =
      analyzeDocumentBody [] oracle dateStr nowTs iso := by
    simp [analyzeDocumentPOST, hkey]
  exact ⟨by simp only [h]; exact ⟨rfl, rfl, rfl, rfl, rfl, rfl⟩, rfl, rfl, rfl⟩

/-- C10 witness: the statement at a concrete explicit key and empty
environment. -/
theorem noFiles_returns_400_witness :
    ((analyzeDocumentPOST (some "k") (fun _ => none) [] oracleOk "d" "n" "i").response.status = 400 ∧
     (analyzeDocumentPOST (some "k") (fun _ => none) [] oracleOk "d" "n" "i").response.success = false ∧
     (analyzeDocumentPOST (some "k") (fun _ => none) [] oracleOk "d" "n" "i").response.error =
       some "No files provided" ∧
     (analyzeDocumentPOST (some "k") (fun _ => none) [] oracleOk "d" "n" "i").report = none ∧
     (analyzeDocumentPOST (some "k") (fun _ => none) [] oracleOk "d" "n" "i").docs = [] ∧
     (analyzeDocumentPOST (some "k") (fun _ => none) [] oracleOk "d" "n" "i").issueRows = []) ∧
    ((analyzePOSTGuard [] (fun _ => emptyOutcome)).response.status = 400 ∧
     (analyzePOSTGuard [] (fun _ => emptyOutcome)).response.error = some "No files provided" ∧
     (analyzePOSTGuard [] (fun _ => emptyOutcome)).report = none) :=
  noFiles_returns_400 (some "k") (fun _ => none) oracleOk "d" "n" "i" "k" rfl
    (fun _ => emptyOutcome)

/-! ## C9 — document-type classification is a pure function of the samples -/

/-- The accumulation loop reads the buffer only at indices `≡ 0, 1, 2
(mod 16)`: two buffers agreeing there produce the same accumulators. -/
theorem detectLoop_congr (n : Nat) (d₁ d₂ : Nat → ℚ)
    (h : ∀ j, j % 16 < 3 → d₁ j = d₂ j) :
    ∀ fuel i, i % 16 = 0 → n - i ≤ fuel → detectLoop n d₁ i = detectLoop n d₂ i := by
  intro fuel
  induction fuel with
  | zero =>
    intro i hi hle
    unfold detectLoop
    rw [dif_neg (by omega), dif_neg (by omega)]
  | succ fuel ih =>
    intro i hi hle
    by_cases hlt : i < n
    · have e₁ : d₁ i = d₂ i := h i (by omega)
      have e₂ : d₁ (i + 1) = d₂ (i + 1) := h (i + 1) (by omega)
      have e₃ : d₁ (i + 2) = d₂ (i + 2) := h (i + 2) (by omega)
      have e₄ : d₁ (i - 64) = d₂ (i - 64) := h (i - 64) (by omega)
      have e₅ : d₁ (i - 63) = d₂ (i - 63) := h (i - 63) (by omega)
      have e₆ : d₁ (i - 62) = d₂ (i - 62) := h (i - 62) (by omega)
      have e₇ : d₁ (i + 64) = d₂ (i + 64) := h (i + 64) (by omega)
      have erec : detectLoop n d₁ (i + 16) = detectLoop n d₂ (i + 16) :=
        ih (i + 16) (by omega) (by omega)
      unfold detectLoop
      rw [dif_pos hlt, dif_pos hlt, e₁, e₂, e₃, e₄, e₅, e₆, e₇, erec]
    · unfold detectLoop
      rw [dif_neg hlt, dif_neg hlt]

/-- C9: the classification depends only on the sampled pixel values — two
buffers of the same length that agree on every sampled byte (the loop reads
indices `≡ 0, 1, 2 (mod 16)` only) classify to the same type, confidence
and reason; in particular two runs on identical buffers coincide. -/
theorem detectDocumentType_deterministic (n : Nat) (d₁ d₂ : Nat → ℚ)
    (h : ∀ j, j % 16 < 3 → d₁ j = d₂ j) :
    detectDocumentTypeCore n d₁ = detectDocumentTypeCore n d₂ := by
  unfold detectDocumentTypeCore
  rw [detectLoop_congr n d₁ d₂ h n 0 (by omega) (by omega)]

/-- The constant-zero buffer. -/
def dSampleA : Nat → ℚ := fun _ => 0

/-- A buffer agreeing with `dSampleA` exactly on the sampled indices. -/
def dSampleB : Nat → ℚ := fun j => if j % 16 < 3 then 0 else 99

/-- C9 witness: the theorem applied to two concrete buffers that differ off
the sample set. -/
theorem detectDocumentType_deterministic_witness :
    detectDocumentTypeCore 160 dSampleA = detectDocumentTypeCore 160 dSampleB :=
  detectDocumentType_deterministic 160 dSampleA dSampleB
    (fun j hj => by simp [dSampleA, dSampleB, hj])

/-! ## C8 — quality-metric bounds -/

theorem foldl_min_le_init (l : List Pixel) (f : Pixel → ℚ) (a : ℚ) :
    l.foldl (fun m p => min m (f p)) a ≤ a := by
  induction l generalizing a with
  | nil => simp
  | cons x xs ih => exact le_trans (ih (min a (f x))) (min_le_left _ _)

theorem le_foldl_min (l : List Pixel) (f : Pixel → ℚ) (a c : ℚ) (hc : c ≤ a)
    (h : ∀ p ∈ l, c ≤ f p) : c ≤ l.foldl (fun m p => min m (f p)) a := by
  induction l generalizing a with
  | nil => simpa
  | cons x xs ih =>
    exact ih (min a (f x)) (le_min hc (h x (List.mem_cons_self x xs)))
      (fun p hp => h p (List.mem_cons_of_mem x hp))

theorem foldl_min_le_mem (l : List Pixel) (f : Pixel → ℚ) (x : Pixel) :
    ∀ a, x ∈ l → l.foldl (fun m p => min m (f p)) a ≤ f x := by
  induction l with
  | nil => intro a hx; cases hx
  | cons y ys ih =>
    intro a hx
    rcases List.mem_cons.mp hx with heq | hmem
    · subst heq
      exact le_trans (foldl_min_le_init ys f (min a (f x))) (min_le_right _ _)
    · exact ih (min a (f y)) hmem

theorem init_le_foldl_max (l : List Pixel) (f : Pixel → ℚ) (a : ℚ) :
    a ≤ l.foldl (fun m p => max m (f p)) a := by
  induction l generalizing a with
  | nil => simp
  | cons x xs ih => exact le_trans (le_max_left _ _) (ih (max a (f x)))

theorem foldl_max_le (l : List Pixel) (f : Pixel → ℚ) (a c : ℚ) (hc : a ≤ c)
    (h : ∀ p ∈ l, f p ≤ c) : l.foldl (fun m p => max m (f p)) a ≤ c := by
  induction l generalizing a with
  | nil => simpa
  | cons x xs ih =>
    exact ih (max a (f x)) (max_le hc (h x (List.mem_cons_self x xs)))
      (fun p hp => h p (List.mem_cons_of_mem x hp))

theorem mem_le_foldl_max (l : List Pixel) (f : Pixel → ℚ) (x : Pixel) :
    ∀ a, x ∈ l → f x ≤ l.foldl (fun m p => max m (f p)) a := by
  induction l with
  | nil => intro a hx; cases hx
  | cons y ys ih =>
    intro a hx
    rcases List.mem_cons.mp hx with heq | hmem
    · subst heq
      exact le_trans (le_max_right _ _) (init_le_foldl_max ys f (max a (f x)))
    · exact ih (max a (f y)) hmem

theorem brightnessOf_nonneg (p : Pixel) : 0 ≤ brightnessOf p := by
  unfold brightnessOf
  positivity

theorem brightnessOf_le (p : Pixel)
    (h : p.r ≤ 255 ∧ p.g ≤ 255 ∧ p.b ≤ 255) : brightnessOf p ≤ 255 := by
  have h1 : (p.r : ℚ) ≤ 255 := by exact_mod_cast h.1
  have h2 : (p.g : ℚ) ≤ 255 := by exact_mod_cast h.2.1
  have h3 : (p.b : ℚ) ≤ 255 := by exact_mod_cast h.2.2
  rw [brightnessOf, div_le_iff₀ (by norm_num : (0 : ℚ) < 3)]
  linarith

/-- Every qualifying edge strength exceeds the threshold 20, so the mean is
non-negative. -/
theorem calculateSharpness_nonneg (w h : Nat) (d : Nat → ℚ) :
    0 ≤ calculateSharpness w h d := by
  unfold calculateSharpness
  dsimp only
  split
  · apply div_nonneg
    · apply List.sum_nonneg
      intro e he
      have h20 : 20 < e := of_decide_eq_true (List.mem_filter.mp he).2
      linarith
    · positivity
  · exact le_refl 0

/-- C8: on any (necessarily non-empty) image buffer with byte-valued
channels, the computed mean brightness and the contrast both lie in
`[0, 255]`, and the sharpness returned by the edge-sampling pass is
non-negative for every buffer and dimensions. -/
theorem imageQuality_bounds (pixels : List Pixel) (w h : Nat) (d : Nat → ℚ)
    (hne : pixels ≠ [])
    (hb : ∀ p ∈ pixels, p.r ≤ 255 ∧ p.g ≤ 255 ∧ p.b ≤ 255) :
    0 ≤ (analyzeImageQuality pixels).brightness ∧
    (analyzeImageQuality pixels).brightness ≤ 255 ∧
    0 ≤ (analyzeImageQuality pixels).contrast ∧
    (analyzeImageQuality pixels).contrast ≤ 255 ∧
    0 ≤ calculateSharpness w h d := by
  obtain ⟨p₀, hp₀⟩ : ∃ p, p ∈ pixels := List.exists_mem_of_ne_nil pixels hne
  have hlen : 0 < pixels.length := List.length_pos.mpr hne
  have hlenQ : (0 : ℚ) < (pixels.length : ℚ) := by exact_mod_cast hlen
  have hsum0 : 0 ≤ (pixels.map brightnessOf).sum := by
    refine List.sum_nonneg ?_
    intro x hx
    obtain ⟨p, _, rfl⟩ := List.mem_map.mp hx
    exact brightnessOf_nonneg p
  have hsum255 : (pixels.map brightnessOf).sum ≤ (pixels.length : ℚ) * 255 := by
    have hle := List.sum_le_card_nsmul (pixels.map brightnessOf) 255 ?_
    · simpa [List.length_map, nsmul_eq_mul] using hle
    · intro x hx
      obtain ⟨p, hp, rfl⟩ := List.mem_map.mp hx
      exact brightnessOf_le p (hb p hp)
  have hmin0 : (0 : ℚ) ≤ pixels.foldl (fun m p => min m (brightnessOf p)) 255 :=
    le_foldl_min pixels brightnessOf 255 0 (by norm_num)
      (fun p _ => brightnessOf_nonneg p)
  have hmax255 : pixels.foldl (fun m p => max m (brightnessOf p)) 0 ≤ 255 :=
    foldl_max_le pixels brightnessOf 0 255 (by norm_num)
      (fun p hp => brightnessOf_le p (hb p hp))
  have hminmem := foldl_min_le_mem pixels brightnessOf p₀ 255 hp₀
  have hmaxmem := mem_le_foldl_max pixels brightnessOf p₀ 0 hp₀
  refine ⟨?_, ?_, ?_, ?_, calculateSharpness_nonneg w h d⟩
  · exact div_nonneg hsum0 hlenQ.le
  · rw [analyzeImageQuality]
    dsimp only
    rw [div_le_iff₀ hlenQ]
    linarith
  · rw [analyzeImageQuality]
    dsimp only
    linarith
  · rw [analyzeImageQuality]
    dsimp only
    linarith

/-- C8 witness: the bounds at a concrete one-pixel buffer (and trivial
sharpness dimensions). -/
theorem imageQuality_bounds_witness :
    0 ≤ (analyzeImageQuality [⟨10, 20, 30, 255⟩]).brightness ∧
    (analyzeImageQuality [⟨10, 20, 30, 255⟩]).brightness ≤ 255 ∧
    0 ≤ (analyzeImageQuality [⟨10, 20, 30, 255⟩]).contrast ∧
    (analyzeImageQuality [⟨10, 20, 30, 255⟩]).contrast ≤ 255 ∧
    0 ≤ calculateSharpness 0 0 (fun _ => 0) :=
  imageQuality_bounds [⟨10, 20, 30, 255⟩] 0 0 (fun _ => 0) (by decide) (by decide)

/-! ## C6 — single-report deletion -/

/-- A path already absent stays absent: the cleanup loop only ever removes
files. -/
theorem unlinkDocs_false_stays (uf : String → Bool) (docs : List DbDocument)
    (p : String) :
    ∀ fs : String → Bool, fs p = false → (unlinkDocs uf docs fs).1 p = false := by
  induction docs with
  | nil => intro fs h; exact h
  | cons d rest ih =>
    intro fs h
    unfold unlinkDocs
    by_cases hfs : fs d.filePath
    · rw [if_pos hfs]
      by_cases huf : uf d.filePath
      · rw [if_pos huf]
        dsimp only
        exact ih fs h
      · rw [if_neg huf]
        apply ih
        dsimp only
        by_cases hp : p = d.filePath
        · rw [if_pos hp]
        · rw [if_neg hp]; exact h
    · rw [if_neg hfs]; exact ih fs h

/-- A path no document in the loop carries is untouched by the cleanup. -/
theorem unlinkDocs_untouched (uf : String → Bool) (docs : List DbDocument)
    (p : String) :
    ∀ fs : String → Bool, (∀ d ∈ docs, d.filePath ≠ p) →
      (unlinkDocs uf docs fs).1 p = fs p := by
  induction docs with
  | nil => intro fs _; rfl
  | cons d rest ih =>
    intro fs h
    have hd : d.filePath ≠ p := h d (List.mem_cons_self d rest)
    have hrest : ∀ x ∈ rest, x.filePath ≠ p := fun x hx => h x (List.mem_cons_of_mem d hx)
    unfold unlinkDocs
    by_cases hfs : fs d.filePath
    · rw [if_pos hfs]
      by_cases huf : uf d.filePath
      · rw [if_pos huf]
        dsimp only
        exact ih fs hrest
      · rw [if_neg huf]
        have := ih (fun q => if q = d.filePath then false else fs q) hrest
        rw [this]
        dsimp only
        rw [if_neg (fun he => hd he.symm)]
    · rw [if_neg hfs]; exact ih fs hrest

/-- A path some document in the loop carries, whose unlink does not throw,
is gone afterwards (whether or not it existed to begin with). -/
theorem unlinkDocs_removes (uf : String → Bool) (p : String) (hufp : uf p = false) :
    ∀ (docs : List DbDocument) (fs : String → Bool),
      (∃ d ∈ docs, d.filePath = p) → fs p = true → (unlinkDocs uf docs fs).1 p = false := by
  intro docs
  induction docs with
  | nil =>
    intro fs hex _
    obtain ⟨d, hd, _⟩ := hex
    cases hd
  | cons d₀ rest ih =>
    intro fs hex hfsp
    obtain ⟨d, hd, hdp⟩ := hex
    unfold unlinkDocs
    rcases List.mem_cons.mp hd with heq | hmem
    · subst heq
      rw [hdp]
      rw [if_pos hfsp, if_neg (by rw [hufp]; exact Bool.false_ne_true)]
      apply unlinkDocs_false_stays
      simp
    · by_cases hfs : fs d₀.filePath
      · rw [if_pos hfs]
        by_cases huf : uf d₀.filePath
        · rw [if_pos huf]
          dsimp only
          exact ih fs ⟨d, hmem, hdp⟩ hfsp
        · rw [if_neg huf]
          by_cases hp : p = d₀.filePath
          · apply unlinkDocs_false_stays
            simp [hp]
          · exact ih _ ⟨d, hmem, hdp⟩ (by simp [hp, hfsp])
      · rw [if_neg hfs]
        exact ih fs ⟨d, hmem, hdp⟩ hfsp

/-- C6: when the report exists, the DELETE handler answers success, the
report row and — via the `ON DELETE CASCADE` foreign keys of the
`@/lib/db` layer — every child document
and issue row are gone while unrelated rows survive, every child document's
existing backing file whose unlink does not throw is removed from disk,
other paths are untouched — and the response is a success for every
filesystem state and every unlink-failure pattern, so a missing file or a
throwing unlink never fails the request. -/
theorem deleteReport_spec (db : Db) (fs : String → Bool) (uf : String → Bool) (rid : Nat)
    (hex : (db.reports.find? (fun r => r.id == rid)).isSome = true) :
    (deleteReportDELETE db fs uf rid).2.2.2.status = 200 ∧
    (deleteReportDELETE db fs uf rid).2.2.2.success = true ∧
    (∀ r ∈ (deleteReportDELETE db fs uf rid).1.reports, r.id ≠ rid) ∧
    (∀ dc ∈ (deleteReportDELETE db fs uf rid).1.documents, dc.reportId ≠ rid) ∧
    (∀ iss ∈ (deleteReportDELETE db fs uf rid).1.issues, iss.reportId ≠ rid) ∧
    (∀ r ∈ db.reports, r.id ≠ rid → r ∈ (deleteReportDELETE db fs uf rid).1.reports) ∧
    (∀ dc ∈ db.documents, dc.reportId ≠ rid →
       dc ∈ (deleteReportDELETE db fs uf rid).1.documents) ∧
    (∀ iss ∈ db.issues, iss.reportId ≠ rid →
       iss ∈ (deleteReportDELETE db fs uf rid).1.issues) ∧
    (∀ dc ∈ db.documents, dc.reportId = rid → fs dc.filePath = true →
       uf dc.filePath = false →
       (deleteReportDELETE db fs uf rid).2.1 dc.filePath = false) ∧
    (∀ p, (∀ dc ∈ db.documents, dc.reportId = rid → dc.filePath ≠ p) →
       (deleteReportDELETE db fs uf rid).2.1 p = fs p) := by
  obtain ⟨r₀, hr⟩ := Option.isSome_iff_exists.mp hex
  simp only [deleteReportDELETE, acquittalReportDelete, hr]
  refine ⟨by trivial, by trivial, ?_, ?_, ?_, ?_, ?_, ?_, ?_, ?_⟩
  · intro r hrm
    have h2 := (List.mem_filter.mp hrm).2
    simpa using h2
  · intro dc hdm
    have h2 := (List.mem_filter.mp hdm).2
    simpa using h2
  · intro iss him
    have h2 := (List.mem_filter.mp him).2
    simpa using h2
  · intro r hrm hne
    exact List.mem_filter.mpr ⟨hrm, by simpa using hne⟩
  · intro dc hdm hne
    exact List.mem_filter.mpr ⟨hdm, by simpa using hne⟩
  · intro iss him hne
    exact List.mem_filter.mpr ⟨him, by simpa using hne⟩
  · intro dc hdm hrep hfsdc hufdc
    exact unlinkDocs_removes uf dc.filePath hufdc _ fs
      ⟨dc, List.mem_filter.mpr ⟨hdm, by simpa using hrep⟩, rfl⟩ hfsdc
  · intro p hp
    apply unlinkDocs_untouched
    intro d hdm
    have hm := List.mem_filter.mp hdm
    exact hp d hm.1 (by simpa using hm.2)

/-- A store with one report (id 1) owning one document (backed by `f1`) and
one issue. -/
def db0 : Db := ⟨[⟨1⟩], [⟨10, 1, "f1"⟩], [⟨20, 1⟩]⟩

/-- C6 witness: deleting report 1 of `db0` — with `f1` present and unlink
succeeding — answers 200/success, clears all three tables of report-1 rows,
and removes `f1`. -/
theorem deleteReport_spec_witness :
    (deleteReportDELETE db0 (fun p => p == "f1") (fun _ => false) 1).2.2.2.status = 200 ∧
    (deleteReportDELETE db0 (fun p => p == "f1") (fun _ => false) 1).2.2.2.success = true ∧
    (∀ r ∈ (deleteReportDELETE db0 (fun p => p == "f1") (fun _ => false) 1).1.reports,
       r.id ≠ 1) ∧
    (deleteReportDELETE db0 (fun p => p == "f1") (fun _ => false) 1).2.1 "f1" = false :=
  ⟨(deleteReport_spec db0 (fun p => p == "f1") (fun _ => false) 1 rfl).1,
   (deleteReport_spec db0 (fun p => p == "f1") (fun _ => false) 1 rfl).2.1,
   (deleteReport_spec db0 (fun p => p == "f1") (fun _ => false) 1 rfl).2.2.1,
   (deleteReport_spec db0 (fun p => p == "f1") (fun _ => false) 1 rfl).2.2.2.2.2.2.2.2.1
     ⟨10, 1, "f1"⟩ (by decide) rfl rfl rfl⟩

/-! ## C5 — API-key resolution priority -/

/-- An environment where only the registered variable `OPENAI_API_KEY` is
set. -/
def envOpenAI : String → Option String :=
  fun n => if n = "OPENAI_API_KEY" then some "sk-test-key-123" else none

/-- C5, counterexample: with no explicit key, a registered provider
variable (`OPENAI_API_KEY`) set, and even a stored active key available,
the claim says resolution returns the environment key; but the request-path
resolver checks only the two variables `AI_API_KEY` and `GOOGLE_API_KEY`
and never the stored keys, so the call fails with a configuration error
although `getEnvApiKey` (and the claim's own priority chain) find a key. -/
theorem getApiKey_counterexample :
    getEnvApiKey false envOpenAI = some "sk-test-key-123" ∧
    resolveKeyClaim none envOpenAI [⟨"id1", "enc"⟩] (some "id1") (fun _ => "plain") =
      some "sk-test-key-123" ∧
    getApiKey none envOpenAI =
      Except.error
        "No API key configured. Set GOOGLE_API_KEY in your environment or add one in Settings." :=
  ⟨rfl, rfl, rfl⟩

/-- `undefined` or the empty string — the falsy cases of a
string-or-missing value. -/
def isFalsy (o : Option String) : Prop := o = none ∨ o = some ""

/-- C5, amended: the request-path resolver `getApiKey` returns the explicit
request key when non-empty, else the first non-empty of exactly the two
variables `AI_API_KEY` then `GOOGLE_API_KEY`, and otherwise fails with a
configuration error — it consults neither the other registered provider
variables nor the stored keys.  Separately, `getActiveApiKey` equals
`getEnvApiKey` (first non-empty registered variable) on the server, and on
the client returns the decrypted stored key under the non-empty active id
when that decryption is non-empty, the environment tier being client-dead. -/
theorem apiKey_resolution_spec (headerKey : Option String)
    (env : String → Option String) (stored : List StoredApiKey)
    (activeId : Option String) (decrypt : String → String) :
    (∀ hk, headerKey = some hk → hk ≠ "" → getApiKey headerKey env = Except.ok hk) ∧
    (isFalsy headerKey → ∀ k, env "AI_API_KEY" = some k → k ≠ "" →
      getApiKey headerKey env = Except.ok k) ∧
    (isFalsy headerKey → isFalsy (env "AI_API_KEY") →
      ∀ k, env "GOOGLE_API_KEY" = some k → k ≠ "" →
        getApiKey headerKey env = Except.ok k) ∧
    (isFalsy headerKey → isFalsy (env "AI_API_KEY") → isFalsy (env "GOOGLE_API_KEY") →
      getApiKey headerKey env =
        Except.error
          "No API key configured. Set GOOGLE_API_KEY in your environment or add one in Settings.") ∧
    (getActiveApiKey false env stored activeId decrypt = getEnvApiKey false env) ∧
    (∀ kid r, activeId = some kid → kid ≠ "" →
      stored.find? (fun x => x.id == kid) = some r → decrypt r.key ≠ "" →
      getActiveApiKey true env stored activeId decrypt = some (decrypt r.key)) := by
  refine ⟨?_, ?_, ?_, ?_, ?_, ?_⟩
  · intro hk hhk hne
    subst hhk
    simp [getApiKey, firstTruthy, hne]
  · rintro (hh | hh) k hk hne <;> subst hh <;>
      simp [getApiKey, firstTruthy, hk, hne]
  · rintro (hh | hh) (ha | ha) k hk hne <;> subst hh <;>
      simp [getApiKey, firstTruthy, ha, hk, hne]
  · rintro (hh | hh) (ha | ha) (hg | hg) <;> subst hh <;>
      simp [getApiKey, firstTruthy, ha, hg]
  · simp [getActiveApiKey, getEnvApiKey]
    cases firstTruthy (envVarNames.map env) <;> simp
  · intro kid r hid hkid hfind hdec
    subst hid
    simp [getActiveApiKey, getEnvApiKey, hkid, hfind, hdec]

/-- C5 witness: the amended statement at concrete environments — an
explicit key wins; `GOOGLE_API_KEY` is found with no explicit key; an empty
environment fails with the configuration error; the client-side resolver
returns the decrypted active stored key. -/
theorem apiKey_resolution_spec_witness :
    getApiKey (some "hdr-key") envOpenAI = Except.ok "hdr-key" ∧
    getApiKey none (fun n => if n = "GOOGLE_API_KEY" then some "AIzaX" else none) =
      Except.ok "AIzaX" ∧
    getApiKey none (fun _ => none) =
      Except.error
        "No API key configured. Set GOOGLE_API_KEY in your environment or add one in Settings." ∧
    getActiveApiKey true (fun _ => none) [⟨"id1", "enc"⟩] (some "id1")
      (fun _ => "plain") = some "plain" :=
  ⟨(apiKey_resolution_spec (some "hdr-key") envOpenAI [] none id).1 "hdr-key" rfl
      (by decide),
   (apiKey_resolution_spec none (fun n => if n = "GOOGLE_API_KEY" then some "AIzaX" else none)
      [] none id).2.2.1 (Or.inl rfl) (Or.inl rfl) "AIzaX" rfl (by decide),
   (apiKey_resolution_spec none (fun _ => none) [] none id).2.2.2.1
      (Or.inl rfl) (Or.inl rfl) (Or.inl rfl),
   (apiKey_resolution_spec none (fun _ => none) [⟨"id1", "enc"⟩] (some "id1")
      (fun _ => "plain")).2.2.2.2.2 "id1" ⟨"id1", "enc"⟩ rfl (by decide) rfl
      (by decide)⟩

/-! ## C3 — locating and parsing the extraction JSON blob -/

/-- The spec's scenario response: prose around one JSON object. -/
def scenarioContent : String :=
  "Document analysis: \x7b\"documentType\":\"invoice\",\"totalAmount\":120\x7d"

/-- The structured fields of the extraction schema other than
`documentType` and the extracted text itself. -/
def structuredFields : List String :=
  ["date", "totalAmount", "referenceNumber", "organization", "items",
   "paymentMethod", "authorization", "signatures"]

/-- C3, counterexample: the claim says that on a missing span (or parse
failure) all structured fields are left undefined; but the fallback object
the route builds sets `documentType` to the constant `'Document'`, so that
structured field is defined. -/
theorem extraction_fallback_counterexample :
    braceSpan "no json here" = none ∧
    jsGet (extractionStep (Except.ok "no json here")).1 "documentType" =
      some (Json.str "Document") ∧
    jsGet (extractionStep (Except.ok "no json here")).1 "documentType" ≠ none := by
  have h : jsGet (extractionStep (Except.ok "no json here")).1 "documentType" =
      some (Json.str "Document") := rfl
  exact ⟨rfl, h, fun hc => Option.some_ne_none _ (h.symm.trans hc)⟩

/-- C3, amended: the pipeline takes the span of the greedy regex — from the
first opening brace to the last closing brace — and parses it; on success
the parsed object becomes the structured result (with `extractedText`
falling back to the whole response when the object lacks a non-empty
`extractedText` string).  When no span exists, and likewise when parsing
fails, the entire response text becomes the extracted text and every
structured field except `documentType` — set to the fallback constant
`'Document'` — is undefined.  The spec's scenario response yields exactly
the parsed two-field object with the surrounding prose discarded. -/
theorem extraction_parse_spec (content span : String) (j : Json) :
    (braceSpan content = some span → jsonParse span = some j →
      extractionStep (Except.ok content) = (j, extractedTextFrom j content)) ∧
    (braceSpan content = none →
      extractionStep (Except.ok content) =
        (Json.obj [("documentType", Json.str "Document"),
                   ("extractedText", Json.str content)], content)) ∧
    (braceSpan content = some span → jsonParse span = none →
      extractionStep (Except.ok content) =
        (Json.obj [("documentType", Json.str "Document"),
                   ("extractedText", Json.str content)], content)) ∧
    (∀ k ∈ structuredFields,
      jsGet (Json.obj [("documentType", Json.str "Document"),
                       ("extractedText", Json.str content)]) k = none) ∧
    extractionStep (Except.ok scenarioContent) =
      (Json.obj [("documentType", Json.str "invoice"), ("totalAmount", Json.num 120 0)],
       scenarioContent) := by
  refine ⟨fun hspan hparse => ?_, fun hspan => ?_, fun hspan hparse => ?_,
          fun k hk => ?_, rfl⟩
  · simp only [extractionStep, hspan, hparse]
  · simp only [extractionStep, hspan]
  · simp only [extractionStep, hspan, hparse]
  · fin_cases hk <;> rfl

/-- C3 witness: the amended statement at the scenario response (parse
succeeds, prose discarded), at a response with no brace span, and at a
response whose span fails to parse. -/
theorem extraction_parse_spec_witness :
    extractionStep (Except.ok scenarioContent) =
      (Json.obj [("documentType", Json.str "invoice"), ("totalAmount", Json.num 120 0)],
       scenarioContent) ∧
    extractionStep (Except.ok "no json here") =
      (Json.obj [("documentType", Json.str "Document"),
                 ("extractedText", Json.str "no json here")], "no json here") ∧
    extractionStep (Except.ok "a\x7bb\x7dc") =
      (Json.obj [("documentType", Json.str "Document"),
                 ("extractedText", Json.str "a\x7bb\x7dc")], "a\x7bb\x7dc") ∧
    jsGet (Json.obj [("documentType", Json.str "Document"),
                     ("extractedText", Json.str "no json here")]) "totalAmount" = none :=
  ⟨(extraction_parse_spec scenarioContent
      "\x7b\"documentType\":\"invoice\",\"totalAmount\":120\x7d"
      (Json.obj [("documentType", Json.str "invoice"), ("totalAmount", Json.num 120 0)])).1
      rfl rfl,
   (extraction_parse_spec "no json here" "" Json.null).2.1 rfl,
   (extraction_parse_spec "a\x7bb\x7dc" "\x7bb\x7d" Json.null).2.2.1 rfl rfl,
   (extraction_parse_spec "no json here" "" Json.null).2.2.2.1 "totalAmount" (by decide)⟩

/-! ## C1 — gateway failures degrade gracefully -/

/-- C1: once key resolution has succeeded and the batch is non-empty, the
endpoint answers 200 with `success: true` for *every* pattern of gateway
outcomes; one document row is written per uploaded file, the row for
position `i` coming from that file's loop iteration; a file whose
extraction call throws gets the substituted default
(`documentType: 'unknown'`, empty extracted text) in its stored document
row; and a file whose compliance call throws contributes zero issue rows
and zero response-issue entries.  In particular a single file whose
extraction call times out still yields a created report and a
`success: true` envelope rather than an error response. -/
theorem gateway_failure_graceful (headerKey : Option String)
    (env : String → Option String) (files : List FileIn) (oracle : Oracle)
    (dateStr nowTs iso : String) (k : String)
    (hkey : getApiKey headerKey env = Except.ok k) (hne : files ≠ []) :
    (analyzeDocumentPOST headerKey env files oracle dateStr nowTs iso).response.status
      = 200 ∧
    (analyzeDocumentPOST headerKey env files oracle dateStr nowTs iso).response.success
      = true ∧
    (analyzeDocumentPOST headerKey env files oracle dateStr nowTs iso).docs.length
      = files.length ∧
    (∀ i f, files[i]? = some f →
      (analyzeDocumentPOST headerKey env files oracle dateStr nowTs iso).docs[i]? =
        some (processFile oracle nowTs iso i f).doc) ∧
    (∀ i f e, oracle.extraction i = Except.error e →
      (processFile oracle nowTs iso i f).extractedData =
        Json.obj [("documentType", Json.str "unknown"), ("extractedText", Json.str "")] ∧
      (processFile oracle nowTs iso i f).extractedText = "" ∧
      (processFile oracle nowTs iso i f).doc.extractedData =
        Json.obj [("documentType", Json.str "unknown"), ("extractedText", Json.str ""),
                  ("analysisTimestamp", Json.str iso)]) ∧
    (∀ i f e, oracle.compliance i = Except.error e →
      (processFile oracle nowTs iso i f).issueRows = [] ∧
      (processFile oracle nowTs iso i f).entries = []) := by
  have hpost : analyzeDocumentPOST headerKey env files oracle dateStr nowTs iso =
      analyzeDocumentBody files oracle dateStr nowTs iso := by
    simp [analyzeDocumentPOST, hkey]
  have hlen : ¬ (files.length = 0) := by
    simpa [List.length_eq_zero] using hne
  rw [hpost]
  unfold analyzeDocumentBody
  rw [if_neg hlen]
  refine ⟨rfl, rfl, ?_, ?_, ?_, ?_⟩
  · dsimp only
    simp [List.length_map, List.enum_length]
  · intro i f hif
    dsimp only
    simp [List.getElem?_map, List.getElem?_enum, hif]
  · intro i f e he
    refine ⟨?_, ?_, ?_⟩ <;>
      (simp only [processFile, extractionStep, he, withTimestamp]; try rfl)
  · intro i f e he
    constructor <;> simp only [processFile, complianceStep, he, List.map_nil]

/-- A single-file batch whose extraction call times out and whose
compliance call also fails. -/
def oracleTimeout : Oracle :=
  ⟨fun _ => Except.error "timeout", fun _ => Except.error "timeout"⟩

/-- C1 witness: one uploaded file whose extraction (and compliance) call
throws — the envelope is still 200/success, one document row carrying the
default extraction result is stored, and no issue rows exist. -/
theorem gateway_failure_graceful_witness :
    (analyzeDocumentPOST (some "k") (fun _ => none) [⟨"r.png", "image/png", 9⟩]
        oracleTimeout "d" "n" "i").response.status = 200 ∧
    (analyzeDocumentPOST (some "k") (fun _ => none) [⟨"r.png", "image/png", 9⟩]
        oracleTimeout "d" "n" "i").response.success = true ∧
    (analyzeDocumentPOST (some "k") (fun _ => none) [⟨"r.png", "image/png", 9⟩]
        oracleTimeout "d" "n" "i").docs.length = 1 ∧
    (processFile oracleTimeout "n" "i" 0 ⟨"r.png", "image/png", 9⟩).extractedData =
      Json.obj [("documentType", Json.str "unknown"), ("extractedText", Json.str "")] ∧
    (processFile oracleTimeout "n" "i" 0 ⟨"r.png", "image/png", 9⟩).issueRows = [] := by
  have h := gateway_failure_graceful (some "k") (fun _ => none)
    [⟨"r.png", "image/png", 9⟩] oracleTimeout "d" "n" "i" "k" rfl (by decide)
  exact ⟨h.1, h.2.1, h.2.2.1,
         (h.2.2.2.2.1 0 ⟨"r.png", "image/png", 9⟩ "timeout" rfl).1,
         (h.2.2.2.2.2 0 ⟨"r.png", "image/png", 9⟩ "timeout" rfl).1⟩
